import Mathlib

/-!
Shallow embedding of the orchestration core of the allin1-ai-assistant
repository, together with theorems checking the natural-language
specification against it.

The embedding covers:
* `src/domain/models/chat_models.py` — the `WorkflowSession` state machine
  and its operations;
* `src/infrastructure/chat_service.py` — the `cancelled` branch of
  `ChatService.handle_interaction_response`;
* `src/infrastructure/composio_action_executor.py` — the priority queue
  processor, single-action execution with retry/backoff, error
  classification and the execution-status lookup;
* `src/infrastructure/composio_function_executor.py` — the recursive task
  tree evaluator and context-variable resolution.

Python `dict`s are modelled as association lists with unique keys in
insertion order (lookup finds the first matching key, assignment replaces
in place or appends).  JSON-like Python values are modelled by `Val`.
Wall-clock instants (`datetime.utcnow()`) are modelled as opaque naturals
supplied by the caller; their values are irrelevant to every claim.
-/

namespace Allin1

/-! ## String helpers

Python string operations used by the source, re-implemented over the
character list of a `String` so that they reduce definitionally.  Python's
`str.lower` is Unicode-aware; only ASCII letters occur in the strings the
source manipulates, so ASCII lowering is faithful here.
-/

/-- Python `s.startswith(p)`. -/
def strStartsWith (s p : String) : Bool := p.data.isPrefixOf s.data

/-- Python `s.endswith(p)`. -/
def strEndsWith (s p : String) : Bool := p.data.isSuffixOf s.data

/-- Python `s[n:]` (drop the first `n` characters). -/
def strDrop (s : String) (n : Nat) : String := ⟨s.data.drop n⟩

/-- Python `s[:-n]` (drop the last `n` characters; used as `s[2:-1]`). -/
def strDropRight (s : String) (n : Nat) : String := ⟨s.data.take (s.data.length - n)⟩

/-- Whether `needle` occurs contiguously inside `hay`. -/
def charsInfixOf (needle : List Char) : List Char → Bool
  | [] => needle.isEmpty
  | c :: rest => needle.isPrefixOf (c :: rest) || charsInfixOf needle rest

/-- Python `needle in hay` for strings. -/
def strContains (hay needle : String) : Bool := charsInfixOf needle.data hay.data

/-- ASCII lowering of one character (Python `str.lower`, ASCII fragment). -/
def charLower (c : Char) : Char :=
  if 'A' ≤ c && c ≤ 'Z' then Char.ofNat (c.toNat + 32) else c

/-- Python `s.lower()` (ASCII fragment). -/
def strLower (s : String) : String := ⟨s.data.map charLower⟩

/-! ## JSON-like values and Python dict operations -/

/-- A JSON-like Python value: the payloads, parameters and contexts the
source passes around (`Any` in the Python type hints). -/
inductive Val where
  | str (s : String)
  | num (n : Int)
  | bool (b : Bool)
  | null
  | list (items : List Val)
  | dict (entries : List (String × Val))
deriving Repr, Inhabited

/-- Python dict lookup `d.get(k)`: the first entry with key `k`, if any. -/
def alistGet {α : Type} (entries : List (String × α)) (k : String) : Option α :=
  match entries.find? (fun e => e.1 == k) with
  | some e => some e.2
  | none => none

/-- Python `k in d`. -/
def alistContains {α : Type} (entries : List (String × α)) (k : String) : Bool :=
  (alistGet entries k).isSome

/-- Python dict assignment `d[k] = v`: replaces the value at an existing
key in place, otherwise appends the new entry. -/
def alistInsert {α : Type} : List (String × α) → String → α → List (String × α)
  | [], k, v => [(k, v)]
  | (k', v') :: rest, k, v =>
      if k' == k then (k', v) :: rest else (k', v') :: alistInsert rest k v

/-- Python `del d[k]`: drop the entry with key `k`.  Dict keys are unique,
so dropping every entry with key `k` is the same as dropping the one. -/
def alistErase {α : Type} (l : List (String × α)) (k : String) : List (String × α) :=
  l.filter (fun e => !(e.1 == k))

/-- Python `d.update(e)` for a dict argument: assign every entry of `e`
into `d` in order. -/
def alistUpdate {α : Type} (d e : List (String × α)) : List (String × α) :=
  e.foldl (fun acc kv => alistInsert acc kv.1 kv.2) d

/-- Python truthiness of a `Val` (`if value:`). -/
def Val.truthy : Val → Bool
  | .str s => !s.data.isEmpty
  | .num n => n != 0
  | .bool b => b
  | .null => false
  | .list items => !items.isEmpty
  | .dict entries => !entries.isEmpty

/-! ## `src/domain/models/chat_models.py` — the workflow session -/

/-- `InteractionType` (chat_models.py lines 17-22). -/
inductive InteractionType where
  | OAUTH
  | CLARIFICATION
  | CONFIRMATION
  | PARAMETER_INPUT
deriving Repr, DecidableEq

/-- `WorkflowStatus` (chat_models.py lines 25-33). -/
inductive WorkflowStatus where
  | PENDING
  | PROCESSING
  | WAITING_FOR_AUTH
  | WAITING_FOR_INPUT
  | COMPLETED
  | FAILED
  | CANCELLED
deriving Repr, DecidableEq

/-- `InteractionData` (chat_models.py lines 66-80). -/
structure InteractionData where
  type : InteractionType
  oauth_url : Option String := none
  app_name : Option String := none
  missing_parameters : Option (List String) := none
  suggestions : Option String := none
  confirmation_message : Option String := none
  interaction_id : String
  expires_at : Option Nat := none
deriving Repr, DecidableEq

/-- `WorkflowStepResult` (chat_models.py lines 45-53).  `step_number` is a
Python float used for fractional sub-steps; modelled as `ℚ`. -/
structure WorkflowStepResult where
  step_number : ℚ
  step_name : String
  status : String
  data : Option (List (String × Val)) := none
  error : Option String := none
  timestamp : Nat
deriving Repr

/-- `WorkflowSession` (chat_models.py lines 121-148). -/
structure WorkflowSession where
  session_id : String
  conversation_id : String
  user_id : String
  original_query : String
  current_step : ℚ := 1
  status : WorkflowStatus := .PENDING
  step_results : List (String × WorkflowStepResult) := []
  selected_app : Option String := none
  selected_action : Option String := none
  normalized_parameters : List (String × Val) := []
  execution_result : Option (List (String × Val)) := none
  pending_interaction : Option InteractionData := none
  created_at : Nat
  updated_at : Nat
  completed_at : Option Nat := none
  metadata : List (String × Val) := []
deriving Repr

/-- A freshly constructed session: every field takes its pydantic default
(status `PENDING`, no pending interaction, empty step results). -/
def mkWorkflowSession (session_id conversation_id user_id original_query : String)
    (now : Nat) : WorkflowSession :=
  { session_id := session_id
    conversation_id := conversation_id
    user_id := user_id
    original_query := original_query
    created_at := now
    updated_at := now }

/-- The dict key `f"step_{step_number}"` used by `add_step_result`.
(Python formats the float as e.g. `"step_2.0"`; the exact rendering of the
number is irrelevant to every claim, only its injectivity is used.) -/
def stepKey (step_number : ℚ) : String := "step_" ++ toString step_number

/-- `WorkflowSession.add_step_result` (chat_models.py lines 155-166):
stores the named step outcome and advances `current_step`; there is no
guard on the current status and the method cannot fail. -/
def addStepResult (now : Nat) (s : WorkflowSession) (step_number : ℚ)
    (step_name status : String) (data : Option (List (String × Val)) := none)
    (error : Option String := none) : WorkflowSession :=
  { s with
    step_results := alistInsert s.step_results (stepKey step_number)
      { step_number := step_number
        step_name := step_name
        status := status
        data := data
        error := error
        timestamp := now }
    current_step := step_number
    updated_at := now }

/-- `WorkflowSession.mark_completed` (chat_models.py lines 168-174).
`if final_result:` is Python truthiness: `None` and the empty dict are
both skipped. -/
def markCompleted (now : Nat) (s : WorkflowSession)
    (final_result : Option (List (String × Val)) := none) : WorkflowSession :=
  let s' := { s with
    status := WorkflowStatus.COMPLETED
    completed_at := some now
    updated_at := now }
  match final_result with
  | some d => if d.isEmpty then s' else { s' with execution_result := some d }
  | none => s'

/-- `WorkflowSession.mark_failed` (chat_models.py lines 176-180): sets the
status to `FAILED` and records the error in `metadata`; it does NOT touch
`pending_interaction`. -/
def markFailed (now : Nat) (s : WorkflowSession) (error : String) : WorkflowSession :=
  { s with
    status := WorkflowStatus.FAILED
    updated_at := now
    metadata := alistInsert s.metadata "error" (.str error) }

/-- `WorkflowSession.set_pending_interaction` (chat_models.py lines
182-189). -/
def setPendingInteraction (now : Nat) (s : WorkflowSession)
    (interaction : InteractionData) : WorkflowSession :=
  { s with
    pending_interaction := some interaction
    status :=
      if interaction.type = InteractionType.OAUTH then WorkflowStatus.WAITING_FOR_AUTH
      else WorkflowStatus.WAITING_FOR_INPUT
    updated_at := now }

/-- `WorkflowSession.clear_pending_interaction` (chat_models.py lines
191-195): unconditionally clears the interaction and sets the status to
`PROCESSING`; there is no guard that an interaction was pending and the
method cannot fail. -/
def clearPendingInteraction (now : Nat) (s : WorkflowSession) : WorkflowSession :=
  { s with
    pending_interaction := none
    status := WorkflowStatus.PROCESSING
    updated_at := now }

/-- One invocation of a `WorkflowSession` mutator, for reachability
statements over arbitrary operation sequences. -/
inductive SessionOp where
  | addStep (now : Nat) (step_number : ℚ) (step_name status : String)
      (data : Option (List (String × Val))) (error : Option String)
  | complete (now : Nat) (final_result : Option (List (String × Val)))
  | fail (now : Nat) (error : String)
  | setPending (now : Nat) (interaction : InteractionData)
  | clearPending (now : Nat)

/-- Apply one mutator. -/
def applySessionOp (s : WorkflowSession) : SessionOp → WorkflowSession
  | .addStep now n name status data error => addStepResult now s n name status data error
  | .complete now r => markCompleted now s r
  | .fail now e => markFailed now s e
  | .setPending now i => setPendingInteraction now s i
  | .clearPending now => clearPendingInteraction now s

/-- Apply a sequence of mutators in order. -/
def applySessionOps (s : WorkflowSession) (ops : List SessionOp) : WorkflowSession :=
  ops.foldl applySessionOp s

/-! ## `src/infrastructure/chat_service.py` — the `cancelled` resume branch -/

/-- The session-state effect of the `response_type == "cancelled"` branch
of `ChatService.handle_interaction_response` (chat_service.py lines
472-475): `session.mark_failed("User cancelled operation")` followed by
`session.clear_pending_interaction()`.  The two `utcnow()` readings are
the two `now` arguments. -/
def handleInteractionCancelled (now₁ now₂ : Nat) (s : WorkflowSession) : WorkflowSession :=
  clearPendingInteraction now₂ (markFailed now₁ s "User cancelled operation")

/-! ## `src/infrastructure/composio_action_executor.py` — queue and executor -/

/-- `ExecutionStatus` (composio_action_executor.py lines 18-25). -/
inductive ExecutionStatus where
  | PENDING
  | RUNNING
  | COMPLETED
  | FAILED
  | CANCELLED
  | RETRYING
deriving Repr, DecidableEq

/-- `ExecutionPriority` (composio_action_executor.py lines 28-33), in its
source declaration order: LOW, NORMAL, HIGH, URGENT. -/
inductive ExecutionPriority where
  | LOW
  | NORMAL
  | HIGH
  | URGENT
deriving Repr, DecidableEq

/-- Python iterates an `Enum` class in member declaration order, so
`for priority in ExecutionPriority` (line 851) visits LOW, NORMAL, HIGH,
URGENT — lowest priority first.  (The `_execution_queues` dict at lines
93-98 is built URGENT-first, but it is not what the loop iterates.) -/
def pythonEnumOrder : List ExecutionPriority :=
  [.LOW, .NORMAL, .HIGH, .URGENT]

/-- `ActionRequest` (composio_action_executor.py lines 36-52). -/
structure ActionRequest where
  id : String
  user_id : String
  app_name : String
  action_name : String
  natural_language_input : String
  parameters : Option (List (String × Val)) := none
  priority : ExecutionPriority := .NORMAL
  retry_count : Nat := 0
  max_retries : Nat := 3
  timeout_seconds : Nat := 300
  dependencies : Option (List String) := none
  metadata : Option (List (String × Val)) := none
  created_at : Option Nat := none
  scheduled_at : Option Nat := none
deriving Repr

/-- `ActionResult` (composio_action_executor.py lines 55-66). -/
structure ActionResult where
  request_id : String
  status : ExecutionStatus
  data : Option Val := none
  error : Option String := none
  execution_time_ms : Option Nat := none
  retry_count : Nat := 0
  started_at : Option Nat := none
  completed_at : Option Nat := none
  metadata : Option (List (String × Val)) := none
deriving Repr

/-- The executor's mutable collections (composio_action_executor.py lines
87-98): pending requests, running and completed executions, and the four
priority lanes holding request ids. -/
structure ExecutorState where
  pending : List (String × ActionRequest) := []
  running : List (String × ActionResult) := []
  completed : List (String × ActionResult) := []
  queue_urgent : List String := []
  queue_high : List String := []
  queue_normal : List String := []
  queue_low : List String := []
deriving Repr

/-- The lane `self._execution_queues[priority]`. -/
def queueOf (st : ExecutorState) : ExecutionPriority → List String
  | .URGENT => st.queue_urgent
  | .HIGH => st.queue_high
  | .NORMAL => st.queue_normal
  | .LOW => st.queue_low

/-- Replace the lane of one priority. -/
def setQueue (st : ExecutorState) : ExecutionPriority → List String → ExecutorState
  | .URGENT, q => { st with queue_urgent := q }
  | .HIGH, q => { st with queue_high := q }
  | .NORMAL, q => { st with queue_normal := q }
  | .LOW, q => { st with queue_low := q }

/-- Queueing a request (composio_action_executor.py lines 180-184,
`execute_immediately=False`): record it as pending and append its id to
the lane of its priority (FIFO tail). -/
def enqueueRequest (st : ExecutorState) (req : ActionRequest) : ExecutorState :=
  let st' := { st with pending := alistInsert st.pending req.id req }
  setQueue st' req.priority (queueOf st' req.priority ++ [req.id])

/-- One iteration of the body of `_process_queue` (composio_action_executor.py
lines 850-868): walk the priorities in Python's enum iteration order,
stop at the first non-empty lane, pop its head, and dispatch the popped
id's pending request (if it is still pending).  Returns the request
handed to `asyncio.create_task(self._execute_single_action(...))`, if
any, together with the updated state. -/
def processQueueStep (st : ExecutorState) : Option ActionRequest × ExecutorState :=
  match pythonEnumOrder.find? (fun p => !(queueOf st p).isEmpty) with
  | none => (none, st)
  | some p =>
    match queueOf st p with
    | [] => (none, st)
    | request_id :: rest =>
      let st1 := setQueue st p rest
      match alistGet st1.pending request_id with
      | some req => (some req, { st1 with pending := alistErase st1.pending request_id })
      | none => (none, st1)

/-- `_is_retryable_error`'s indicator list (composio_action_executor.py
lines 901-904). -/
def retryableIndicators : List String :=
  ["timeout", "connection", "network", "rate limit",
   "temporary", "service unavailable", "503", "429"]

/-- `ComposioActionExecutor._is_retryable_error` (lines 898-907): an error
is transient-classified iff its lowercased message contains one of the
indicator substrings. -/
def isRetryableError (error_message : String) : Bool :=
  retryableIndicators.any (fun ind => strContains (strLower error_message) ind)

/-- The message of the exception raised when the authentication check
fails (composio_action_executor.py line 363). -/
def authErrorMsg (req : ActionRequest) : String :=
  "User " ++ req.user_id ++ " not authenticated for " ++ req.app_name

/-- `_check_app_authentication`'s verdict (composio_action_executor.py
lines 877-896): authenticated iff the user has at least one connected
account for the app (errors while checking count as zero accounts). -/
def checkAppAuthenticated (connected_accounts_count : Nat) : Bool :=
  decide (0 < connected_accounts_count)

/-- Outcome of the body of one execution attempt after the authentication
check succeeded (composio_action_executor.py lines 365-404): parameter
generation, validation and `composio_service.execute_tool` either raise
an exception (any of lines 368-390, collapsed into one case carrying the
exception message), or return `{'success': True, 'data': …}`, or return
`{'success': False, 'error': …}` (the error key may be missing). -/
inductive ToolOutcome where
  | raises (msg : String)
  | toolSuccess (data : Val)
  | toolFailure (error : Option String)

/-- The environment of one `_execute_single_action` run: the user's
connected-account count for the target app, the outcome of the attempt
made at each retry count, and opaque wall-clock instants. -/
structure ExecEnv where
  connected_accounts : Nat
  attempt : Nat → ToolOutcome
  startTime : Nat := 0
  endTime : Nat := 0

/-- What one `_execute_single_action` call produces: the returned
`ActionResult`, the exponential-backoff sleeps performed (in seconds, in
order), and the updated executor state. -/
structure RunOut where
  result : ActionResult
  delays : List Nat
  state : ExecutorState

/-- The `finally` block of `_execute_single_action` (lines 427-436): stamp
the frame's result, drop the id from the running map and store the result
in the completed map. -/
def finalizeFrame (env : ExecEnv) (id : String) (r : ActionResult)
    (st : ExecutorState) : ActionResult × ExecutorState :=
  let r' := { r with
    execution_time_ms := some ((env.endTime - env.startTime) * 1000)
    completed_at := some env.endTime }
  (r', { st with
    running := alistErase st.running id
    completed := alistInsert st.completed id r' })

/-- `ComposioActionExecutor._execute_single_action` (lines 345-438),
recursing on `gas`, the remaining retry budget
`max_retries - retry_count`: the retry branch is guarded by
`request.retry_count < request.max_retries`, which is exactly `gas > 0`,
and the recursive call increments `retry_count`, i.e. decrements `gas`.
Each frame first records a RUNNING result, then the authentication check
either fails (an exception whose message is `authErrorMsg`) or the
attempt's `ToolOutcome` decides the branch; every frame ends with its own
`finally` block, so an outer retry frame overwrites the completed entry
written by its inner frames with its own RETRYING result. -/
def execGas (env : ExecEnv) : Nat → ActionRequest → ExecutorState → RunOut
  | gas, req, st =>
    let running0 : ActionResult :=
      { request_id := req.id, status := .RUNNING, started_at := some env.startTime }
    let st1 : ExecutorState := { st with running := alistInsert st.running req.id running0 }
    let outcome : ToolOutcome :=
      if checkAppAuthenticated env.connected_accounts then env.attempt req.retry_count
      else .raises (authErrorMsg req)
    match outcome with
    | .toolSuccess d =>
        let r := { running0 with status := .COMPLETED, data := some d }
        let fz := finalizeFrame env req.id r st1
        { result := fz.1, delays := [], state := fz.2 }
    | .toolFailure err =>
        let r := { running0 with status := .FAILED, error := some (err.getD "Unknown error") }
        let fz := finalizeFrame env req.id r st1
        { result := fz.1, delays := [], state := fz.2 }
    | .raises msg =>
        let rFail := { running0 with status := .FAILED, error := some msg }
        match gas with
        | 0 =>
            let fz := finalizeFrame env req.id rFail st1
            { result := fz.1, delays := [], state := fz.2 }
        | gas' + 1 =>
            if isRetryableError msg then
              let r1 := req.retry_count + 1
              let rRetry := { rFail with status := .RETRYING, retry_count := r1 }
              let delay := min 300 (2 ^ r1)
              let inner := execGas env gas' { req with retry_count := r1 } st1
              { result := inner.result, delays := delay :: inner.delays,
                state := (finalizeFrame env req.id rRetry inner.state).2 }
            else
              let fz := finalizeFrame env req.id rFail st1
              { result := fz.1, delays := [], state := fz.2 }

/-- `_execute_single_action` on a request, starting from its current
retry count. -/
def executeSingleAction (env : ExecEnv) (req : ActionRequest)
    (st : ExecutorState) : RunOut :=
  execGas env (req.max_retries - req.retry_count) req st

/-- `ComposioActionExecutor.get_execution_status` (lines 234-253): running
executions first, then completed ones, then pending requests (reported as
a fresh PENDING result), else `None`. -/
def getExecutionStatus (st : ExecutorState) (request_id : String) : Option ActionResult :=
  match alistGet st.running request_id with
  | some r => some r
  | none =>
    match alistGet st.completed request_id with
    | some r => some r
    | none =>
      match alistGet st.pending request_id with
      | some req =>
          some { request_id := request_id
                 status := .PENDING
                 metadata := some [("queued_at", Val.num (Int.ofNat (req.created_at.getD 0)))] }
      | none => none

/-! ## `src/infrastructure/composio_function_executor.py` — task trees -/

/-- The result dict of one task-node or `execute_function` evaluation.
`data = none` models a dict with NO `'data'` key (as in
`execute_function`'s failure returns, lines 100-116), while
`data = some .null` models `'data': None`; accessing a missing key raises
`KeyError`. -/
structure NodeResult where
  success : Bool
  data : Option Val := none
  error : Option String := none
deriving Repr

/-- The result of `_execute_task_node`'s own `except` handler (lines
485-491): `{'success': False, 'data': None, 'error': str(e)}`. -/
def exceptionResult (msg : String) : NodeResult :=
  { success := false, data := some .null, error := some msg }

/-- Environment of a task-tree run: the outcome of
`ComposioFunctionExecutor.execute_function` for a function name and
resolved parameters.  `execute_function` (lines 37-116) catches every
exception itself and always returns a result dict, so it is modelled as a
total function; its failure dicts carry no `'data'` key. -/
structure TreeEnv where
  execFn : String → List (String × Val) → NodeResult

/-- A task-tree node, one constructor per branch of the dispatch in
`_execute_task_node` (lines 372-483): a dict with a `'function'`/`'tool'`
key, a dict with a `'parallel'` key, a dict with a `'sequential'` key,
any other dict (whose values are themselves nodes, primitives included),
a bare list, or a primitive value. -/
inductive TaskNode where
  | leaf (function_name : String) (parameters : List (String × Val))
  | parallel (tasks : List TaskNode)
  | sequential (tasks : List TaskNode)
  | record (entries : List (String × TaskNode))
  | listNode (items : List TaskNode)
  | prim (v : Val)

/-- Python `KeyError: 'data'` rendered by `str(e)`. -/
def keyErrorData : String := "\x27data\x27"

/-- `[r['data'] for r in results]`: the data values of all results, or a
`KeyError` if any result dict lacks the `'data'` key. -/
def allData (results : List NodeResult) : Option (List Val) :=
  results.mapM (·.data)

/-- `context.update(result['data'])` (line 436).  A dict argument merges
its entries; a list argument must be a sequence of `[key, value]` pairs
with string keys; anything else raises (the exact Python `TypeError` /
`ValueError` message is not modelled — no theorem depends on it). -/
def ctxUpdateVal (ctx : List (String × Val)) : Val → Except String (List (String × Val))
  | .dict entries => .ok (alistUpdate ctx entries)
  | .list items => do
      let pairs ← items.mapM fun item =>
        match item with
        | .list [.str k, v] => Except.ok (k, v)
        | _ => Except.error "cannot convert dictionary update sequence"
      .ok (alistUpdate ctx pairs)
  | _ => .error "cannot convert dictionary update sequence"

/-- The `try`/`except` frame wrapped around each `_execute_task_node`
invocation (lines 371 and 485-491): an exception escaping the branch body
becomes `exceptionResult`; context mutations made before the raise
persist (Python mutates the caller's dict in place). -/
def catchFrame (out : Except String NodeResult × List (String × Val) × List (String × Bool)) :
    NodeResult × List (String × Val) × List (String × Bool) :=
  match out with
  | (.ok r, ctx, steps) => (r, ctx, steps)
  | (.error msg, ctx, steps) => (exceptionResult msg, ctx, steps)

mutual

/-- The body of `_execute_task_node` (lines 372-483), before its
`except` handler.  State: the shared execution context (a Python dict
mutated in place) and the `steps` list of the owning execution record
(function name and success flag of each executed leaf, in execution
order; the interleaving `asyncio.gather` would produce for parallel
children is modelled as child list order).  An `Except.error` is an
exception escaping the branch body. -/
def evalBody (env : TreeEnv) :
    TaskNode → List (String × Val) → List (String × Bool) →
    Except String NodeResult × List (String × Val) × List (String × Bool)
  | .leaf fn params, ctx, steps =>
      let resolved := resolveContextVariables params ctx
      let result := env.execFn fn resolved
      if result.success then
        match result.data with
        | none => (.error keyErrorData, ctx, steps)
        | some d =>
            let ctx' := if d.truthy then alistInsert ctx (fn ++ "_result") d else ctx
            (.ok result, ctx', steps ++ [(fn, result.success)])
      else
        (.ok result, ctx, steps ++ [(fn, result.success)])
  | .parallel tasks, ctx, steps =>
      let (results, steps') := evalChildrenCopy env tasks ctx steps
      let success := results.all (·.success)
      match allData results with
      | none => (.error keyErrorData, ctx, steps')
      | some ds => (.ok { success := success, data := some (.list ds) }, ctx, steps')
  | .sequential tasks, ctx, steps =>
      match evalSeqLoop env tasks ctx steps [] with
      | (.error e, ctx', steps') => (.error e, ctx', steps')
      | (.ok results, ctx', steps') =>
          let success := results.all (·.success)
          match allData results with
          | none => (.error keyErrorData, ctx', steps')
          | some ds => (.ok { success := success, data := some (.list ds) }, ctx', steps')
  | .record entries, ctx, steps =>
      match evalRecordLoop env entries ctx steps [] true with
      | (.error e, ctx', steps') => (.error e, ctx', steps')
      | (.ok (result_data, success), ctx', steps') =>
          (.ok { success := success, data := some (.dict result_data) }, ctx', steps')
  | .listNode items, ctx, steps =>
      let (results, ctx', steps') := evalListLoop env items ctx steps []
      let success := results.all (·.success)
      match allData results with
      | none => (.error keyErrorData, ctx', steps')
      | some ds => (.ok { success := success, data := some (.list ds) }, ctx', steps')
  | .prim v, ctx, steps => (.ok { success := true, data := some v }, ctx, steps)
termination_by structural node => node

/-- The `asyncio.gather` of a PARALLEL node (lines 407-410): every child
is evaluated against `context.copy()` — the same incoming context value —
and the children's context mutations are discarded. -/
def evalChildrenCopy (env : TreeEnv) :
    List TaskNode → List (String × Val) → List (String × Bool) →
    List NodeResult × List (String × Bool)
  | [], _, steps => ([], steps)
  | t :: rest, ctx, steps =>
      let (r, _, steps1) := catchFrame (evalBody env t ctx steps)
      let (rs, steps2) := evalChildrenCopy env rest ctx steps1
      (r :: rs, steps2)
termination_by structural tasks => tasks

/-- The SEQUENTIAL loop (lines 426-436): children in order against the
shared context; `break` on the first failure; otherwise merge a truthy
`result['data']` into the context before the next child. -/
def evalSeqLoop (env : TreeEnv) :
    List TaskNode → List (String × Val) → List (String × Bool) → List NodeResult →
    Except String (List NodeResult) × List (String × Val) × List (String × Bool)
  | [], ctx, steps, acc => (.ok acc, ctx, steps)
  | t :: rest, ctx, steps, acc =>
      let (r, ctx1, steps1) := catchFrame (evalBody env t ctx steps)
      let acc' := acc ++ [r]
      if !r.success then (.ok acc', ctx1, steps1)
      else
        match r.data with
        | none => (.error keyErrorData, ctx1, steps1)
        | some d =>
            if d.truthy then
              match ctxUpdateVal ctx1 d with
              | .error e => (.error e, ctx1, steps1)
              | .ok ctx2 => evalSeqLoop env rest ctx2 steps1 acc'
            else evalSeqLoop env rest ctx1 steps1 acc'
termination_by structural tasks => tasks

/-- The plain-dict loop (lines 448-458): dict/list values are evaluated
as sub-nodes against the shared context, primitive values are copied
through; the running `success` flag is the AND of sub-node successes. -/
def evalRecordLoop (env : TreeEnv) :
    List (String × TaskNode) → List (String × Val) → List (String × Bool) →
    List (String × Val) → Bool →
    Except String (List (String × Val) × Bool) × List (String × Val) × List (String × Bool)
  | [], ctx, steps, accData, accSucc => (.ok (accData, accSucc), ctx, steps)
  | (k, .prim v) :: rest, ctx, steps, accData, accSucc =>
      evalRecordLoop env rest ctx steps (alistInsert accData k v) accSucc
  | (k, t) :: rest, ctx, steps, accData, accSucc =>
      let (r, ctx1, steps1) := catchFrame (evalBody env t ctx steps)
      match r.data with
      | none => (.error keyErrorData, ctx1, steps1)
      | some d =>
          evalRecordLoop env rest ctx1 steps1 (alistInsert accData k d)
            (accSucc && r.success)
termination_by structural entries => entries

/-- The bare-list loop (lines 467-470): every item in order against the
shared context, no short-circuit. -/
def evalListLoop (env : TreeEnv) :
    List TaskNode → List (String × Val) → List (String × Bool) → List NodeResult →
    List NodeResult × List (String × Val) × List (String × Bool)
  | [], ctx, steps, acc => (acc, ctx, steps)
  | t :: rest, ctx, steps, acc =>
      let (r, ctx1, steps1) := catchFrame (evalBody env t ctx steps)
      evalListLoop env rest ctx1 steps1 (acc ++ [r])
termination_by structural items => items

/-- `ComposioFunctionExecutor._resolve_context_variables` (lines 493-521)
over the entries of a parameter dict. -/
def resolveContextVariables :
    List (String × Val) → List (String × Val) → List (String × Val)
  | [], _ => []
  | (k, v) :: rest, context =>
      (k, resolveParamValue v context) :: resolveContextVariables rest context
termination_by structural parameters => parameters

/-- One parameter value (lines 507-519): a string of the shape `${name}`
becomes `context.get(name, value)`; a dict is resolved recursively; a
list has exactly its dict items resolved; everything else is returned
unchanged. -/
def resolveParamValue (v : Val) (context : List (String × Val)) : Val :=
  match v with
  | .str s =>
      if strStartsWith s "$\x7b" && strEndsWith s "\x7d" then
        (alistGet context (strDropRight (strDrop s 2) 1)).getD (.str s)
      else .str s
  | .dict entries => .dict (resolveContextVariables entries context)
  | .list items => .list (resolveListItems items context)
  | other => other
termination_by structural v

/-- The list comprehension at lines 514-517: only items that are dicts
are resolved; every other item (strings included) passes through. -/
def resolveListItems : List Val → List (String × Val) → List Val
  | [], _ => []
  | .dict entries :: rest, context =>
      .dict (resolveContextVariables entries context) :: resolveListItems rest context
  | item :: rest, context => item :: resolveListItems rest context
termination_by structural items => items

end

/-- One `_execute_task_node` invocation: its body wrapped in its own
`try`/`except` frame. -/
def evalNode (env : TreeEnv) (node : TaskNode) (ctx : List (String × Val))
    (steps : List (String × Bool)) :
    NodeResult × List (String × Val) × List (String × Bool) :=
  catchFrame (evalBody env node ctx steps)

/-- An element of the `results` list `asyncio.gather(...,
return_exceptions=True)` gives the PARALLEL branch: either a result dict
returned by a child, or a raised exception object. -/
inductive GatherItem where
  | result (r : NodeResult)
  | exc (msg : String)

/-- The success aggregation of the PARALLEL branch, exactly as written at
line 414: `all(r['success'] for r in results if isinstance(r, dict))` —
items that are exceptions are filtered out, not counted as failures. -/
def combineParallelSuccess (results : List GatherItem) : Bool :=
  (results.filterMap fun
    | .result r => some r
    | .exc _ => none).all (·.success)

/-! ## Shared concrete fixtures for the claim theorems -/

/-- An OAUTH interaction used by the concrete session scenarios. -/
def sampleInteraction : InteractionData :=
  { type := .OAUTH, oauth_url := some "https://auth.example/start",
    app_name := some "gmail", interaction_id := "i1" }

/-- A freshly created workflow session. -/
def sampleSession : WorkflowSession :=
  mkWorkflowSession "s1" "c1" "u1" "send an email to john" 0

/-- A LOW-priority request, queued first. -/
def c1Low : ActionRequest :=
  { id := "lo", user_id := "u1", app_name := "gmail", action_name := "send_email",
    natural_language_input := "send the weekly report", priority := .LOW }

/-- An URGENT-priority request, queued after `c1Low`. -/
def c1Urgent : ActionRequest :=
  { id := "ur", user_id := "u1", app_name := "gmail", action_name := "send_email",
    natural_language_input := "page the on-call", priority := .URGENT }

/-- Environment in which every execution attempt raises a timeout. -/
def c5Env : ExecEnv :=
  { connected_accounts := 1, attempt := fun _ => .raises "Request timeout after 300s" }

/-- A request with the default retry budget. -/
def c5Req : ActionRequest :=
  { id := "r1", user_id := "u1", app_name := "gmail", action_name := "send_email",
    natural_language_input := "send hello" }

/-- Environment with zero connected accounts for the target app. -/
def c6Env : ExecEnv :=
  { connected_accounts := 0, attempt := fun _ => .toolSuccess .null }

/-- An unauthenticated request against an ordinarily named app. -/
def c6Req : ActionRequest :=
  { id := "r6", user_id := "u1", app_name := "gmail", action_name := "send_email",
    natural_language_input := "send hello" }

/-- A tree environment in which the function `ok` succeeds with a truthy
dict output and every other function fails with a rate-limit error. -/
def envOkOrRateLimited : TreeEnv :=
  { execFn := fun fn _ =>
      if fn == "ok" then { success := true, data := some (.dict [("k", .num 1)]) }
      else { success := false, error := some "rate limit exceeded" } }

/-! ## Association-list lemmas -/

theorem alistGet_insert_self {α : Type} (l : List (String × α)) (k : String) (v : α) :
    alistGet (alistInsert l k v) k = some v := by
  induction l with
  | nil => simp [alistInsert, alistGet]
  | cons e rest ih =>
      obtain ⟨k', v'⟩ := e
      by_cases h : k' = k
      · simp [alistInsert, alistGet, h]
      · simpa [alistInsert, alistGet, h] using ih

theorem alistContains_false_get_none {α : Type} {l : List (String × α)} {k : String}
    (h : alistContains l k = false) : alistGet l k = none := by
  unfold alistContains at h
  cases hg : alistGet l k with
  | none => rfl
  | some v => rw [hg] at h; simp at h

theorem alistContains_true_get_some {α : Type} {l : List (String × α)} {k : String}
    (h : alistContains l k = true) : ∃ v, alistGet l k = some v := by
  unfold alistContains at h
  cases hg : alistGet l k with
  | none => rw [hg] at h; simp at h
  | some v => exact ⟨v, rfl⟩

theorem alistGet_erase_self {α : Type} (l : List (String × α)) (k : String) :
    alistGet (alistErase l k) k = none := by
  induction l with
  | nil => simp [alistErase, alistGet]
  | cons e rest ih =>
      obtain ⟨k', v'⟩ := e
      by_cases h : k' = k
      · simpa [alistErase, alistGet, h] using ih
      · simpa [alistErase, alistGet, h] using ih

/-! ## C2 — the waiting ⇔ pending-interaction invariant -/

theorem sessionOp_preserves_waiting_implies_pending (s : WorkflowSession) (op : SessionOp)
    (h : s.status = .WAITING_FOR_AUTH ∨ s.status = .WAITING_FOR_INPUT →
      s.pending_interaction.isSome = true) :
    (applySessionOp s op).status = .WAITING_FOR_AUTH ∨
      (applySessionOp s op).status = .WAITING_FOR_INPUT →
      (applySessionOp s op).pending_interaction.isSome = true := by
  cases op with
  | addStep now n name stat data err =>
      simpa [applySessionOp, addStepResult] using h
  | complete now r =>
      cases r with
      | none => simp [applySessionOp, markCompleted]
      | some d =>
          by_cases hd : d.isEmpty <;> simp [applySessionOp, markCompleted, hd]
  | fail now e => simp [applySessionOp, markFailed]
  | setPending now i =>
      by_cases hi : i.type = InteractionType.OAUTH <;>
        simp [applySessionOp, setPendingInteraction, hi]
  | clearPending now => simp [applySessionOp, clearPendingInteraction]

theorem applySessionOps_waiting_implies_pending (ops : List SessionOp) :
    ∀ s : WorkflowSession,
      (s.status = .WAITING_FOR_AUTH ∨ s.status = .WAITING_FOR_INPUT →
        s.pending_interaction.isSome = true) →
      ((applySessionOps s ops).status = .WAITING_FOR_AUTH ∨
        (applySessionOps s ops).status = .WAITING_FOR_INPUT →
        (applySessionOps s ops).pending_interaction.isSome = true) := by
  induction ops with
  | nil => intro s h; simpa [applySessionOps] using h
  | cons op rest ih =>
      intro s h
      simpa [applySessionOps] using
        ih (applySessionOp s op) (sessionOp_preserves_waiting_implies_pending s op h)

/-- C2, corrected.  The claimed equivalence fails (see the counterexample:
`mark_failed` and `mark_completed` leave `pending_interaction` set), but
its forward direction is an invariant of every reachable session — a
WAITING status implies a pending interaction — and
`clear_pending_interaction` always moves the status back to PROCESSING. -/
theorem C2_waiting_implies_pending_and_clear_resumes
    (sid cid uid q : String) (t0 now : Nat) (ops : List SessionOp) (s : WorkflowSession) :
    ((applySessionOps (mkWorkflowSession sid cid uid q t0) ops).status = .WAITING_FOR_AUTH ∨
      (applySessionOps (mkWorkflowSession sid cid uid q t0) ops).status = .WAITING_FOR_INPUT →
      (applySessionOps (mkWorkflowSession sid cid uid q t0) ops).pending_interaction.isSome = true) ∧
    (clearPendingInteraction now s).status = .PROCESSING := by
  constructor
  · exact applySessionOps_waiting_implies_pending ops _ (by simp [mkWorkflowSession])
  · rfl

/-- Witness for `C2_waiting_implies_pending_and_clear_resumes` at a
concrete reachable session whose status is WAITING_FOR_AUTH. -/
theorem C2_waiting_implies_pending_witness :
    (applySessionOps (mkWorkflowSession "s1" "c1" "u1" "send an email to john" 0)
        [.setPending 1 sampleInteraction]).pending_interaction.isSome = true ∧
    (clearPendingInteraction 5 sampleSession).status = .PROCESSING :=
  ⟨(C2_waiting_implies_pending_and_clear_resumes "s1" "c1" "u1" "send an email to john" 0 5
      [.setPending 1 sampleInteraction] sampleSession).1 (Or.inl rfl),
   (C2_waiting_implies_pending_and_clear_resumes "s1" "c1" "u1" "send an email to john" 0 5
      [.setPending 1 sampleInteraction] sampleSession).2⟩

/-- C2's claimed "if and only if" is false on the code: after
`set_pending_interaction` followed by `mark_failed`, the session's status
is FAILED (not a WAITING status) while `pending_interaction` is still
set, because `mark_failed` does not clear it. -/
theorem C2_counterexample_mark_failed_keeps_pending_interaction :
    (applySessionOps sampleSession
        [.setPending 1 sampleInteraction, .fail 2 "boom"]).status = WorkflowStatus.FAILED ∧
    (applySessionOps sampleSession
        [.setPending 1 sampleInteraction, .fail 2 "boom"]).pending_interaction =
      some sampleInteraction :=
  ⟨rfl, rfl⟩

/-! ## C7 — guards on `add_step_result` / `clear_pending_interaction` -/

/-- C7, corrected.  Neither operation can fail: `add_step_result` records
the step and leaves the status untouched whatever it is (WAITING statuses
included), and `clear_pending_interaction` silently sets the status to
PROCESSING even when no interaction is pending. -/
theorem C7_operations_succeed_silently (now : Nat) (s : WorkflowSession) (n : ℚ)
    (name stat : String) (data : Option (List (String × Val))) (err : Option String) :
    (addStepResult now s n name stat data err).status = s.status ∧
    alistGet (addStepResult now s n name stat data err).step_results (stepKey n) =
      some { step_number := n, step_name := name, status := stat,
             data := data, error := err, timestamp := now } ∧
    (clearPendingInteraction now s).status = .PROCESSING ∧
    (clearPendingInteraction now s).pending_interaction = none := by
  refine ⟨rfl, ?_, rfl, rfl⟩
  simpa [addStepResult] using alistGet_insert_self s.step_results (stepKey n) _

/-- C7's claim is false on the code: calling `add_step_result` on a
session whose status is WAITING_FOR_AUTH silently records the step (no
exception, no error return — the method is a plain mutation), and calling
`clear_pending_interaction` on a fresh session with no pending
interaction silently sets the status to PROCESSING. -/
theorem C7_counterexample_no_guard :
    (setPendingInteraction 1 sampleSession sampleInteraction).status =
      WorkflowStatus.WAITING_FOR_AUTH ∧
    (addStepResult 2 (setPendingInteraction 1 sampleSession sampleInteraction)
        2 "execute" "completed").status = WorkflowStatus.WAITING_FOR_AUTH ∧
    alistContains (addStepResult 2 (setPendingInteraction 1 sampleSession sampleInteraction)
        2 "execute" "completed").step_results (stepKey 2) = true ∧
    sampleSession.pending_interaction = none ∧
    (clearPendingInteraction 1 sampleSession).status = WorkflowStatus.PROCESSING := by
  refine ⟨rfl, rfl, ?_, rfl, rfl⟩
  have h := alistGet_insert_self
    (setPendingInteraction 1 sampleSession sampleInteraction).step_results (stepKey 2)
    { step_number := 2, step_name := "execute", status := "completed", timestamp := 2 }
  simp [addStepResult, alistContains, h]

/-! ## C8 — resuming with `cancelled` -/

/-- C8, corrected.  The `cancelled` branch runs `mark_failed` and then
`clear_pending_interaction`; the latter unconditionally resets the status,
so the session ends in PROCESSING — not in the terminal CANCELLED status
the claim states (and not even in FAILED).  Only the failure reason in
`metadata` survives. -/
theorem C8_cancelled_branch_leaves_processing (now₁ now₂ : Nat) (s : WorkflowSession) :
    (handleInteractionCancelled now₁ now₂ s).status = WorkflowStatus.PROCESSING ∧
    (handleInteractionCancelled now₁ now₂ s).pending_interaction = none ∧
    alistGet (handleInteractionCancelled now₁ now₂ s).metadata "error" =
      some (.str "User cancelled operation") := by
  refine ⟨rfl, rfl, ?_⟩
  simpa [handleInteractionCancelled, clearPendingInteraction, markFailed] using
    alistGet_insert_self s.metadata "error" (Val.str "User cancelled operation")

/-- C8's claim is false on the code: resuming a concrete pending
interaction with response kind `cancelled` leaves the owning session in
status PROCESSING, not CANCELLED. -/
theorem C8_counterexample_not_cancelled :
    (handleInteractionCancelled 2 3
        (setPendingInteraction 1 sampleSession sampleInteraction)).status =
      WorkflowStatus.PROCESSING ∧
    (handleInteractionCancelled 2 3
        (setPendingInteraction 1 sampleSession sampleInteraction)).status ≠
      WorkflowStatus.CANCELLED := by
  refine ⟨rfl, ?_⟩
  decide

/-! ## C1 — queue processor priority order -/

/-- C1 names a code bug: with a LOW request queued before an URGENT one,
the first `_process_queue` iteration dispatches the LOW request and
leaves the URGENT one waiting, because `for priority in ExecutionPriority`
iterates the enum in declaration order LOW → URGENT.  (The
`_execution_queues` dict is deliberately built URGENT-first, so the spec's
URGENT > HIGH > NORMAL > LOW order is plainly the intent.) -/
theorem C1_queue_processor_dispatches_low_lane_first :
    ((processQueueStep (enqueueRequest (enqueueRequest {} c1Low) c1Urgent)).1.map
      (fun r => r.id) = some "lo") ∧
    queueOf (processQueueStep (enqueueRequest (enqueueRequest {} c1Low) c1Urgent)).2
      .URGENT = ["ur"] :=
  ⟨rfl, rfl⟩

/-! ## C9 — every finished execution is visible in the completed map -/

theorem finalizeFrame_completed_running (env : ExecEnv) (id : String)
    (r : ActionResult) (st : ExecutorState) :
    alistContains (finalizeFrame env id r st).2.completed id = true ∧
    alistContains (finalizeFrame env id r st).2.running id = false := by
  constructor
  · simp [finalizeFrame, alistContains, alistGet_insert_self]
  · simp [finalizeFrame, alistContains, alistGet_erase_self]

theorem execGas_completed_running (env : ExecEnv) (gas : Nat) (req : ActionRequest)
    (st : ExecutorState) :
    alistContains (execGas env gas req st).state.completed req.id = true ∧
    alistContains (execGas env gas req st).state.running req.id = false := by
  cases gas with
  | zero =>
      rw [execGas.eq_def]
      dsimp only []
      repeat' split
      all_goals exact finalizeFrame_completed_running _ _ _ _
  | succ gas' =>
      rw [execGas.eq_def]
      dsimp only []
      repeat' split
      all_goals exact finalizeFrame_completed_running _ _ _ _

/-- C9, confirmed.  Whenever `_execute_single_action` returns — success,
failure, or after any chain of retries — its `finally` block has left the
request id present in `_completed_executions` and absent from
`_running_executions`, so `get_execution_status` on that id returns a
result rather than `None`. -/
theorem C9_single_action_lands_in_completed (env : ExecEnv) (req : ActionRequest)
    (st : ExecutorState) :
    alistContains (executeSingleAction env req st).state.completed req.id = true ∧
    alistContains (executeSingleAction env req st).state.running req.id = false ∧
    (getExecutionStatus (executeSingleAction env req st).state req.id).isSome = true := by
  unfold executeSingleAction
  obtain ⟨hc, hr⟩ := execGas_completed_running env (req.max_retries - req.retry_count) req st
  obtain ⟨r, hcs⟩ := alistContains_true_get_some hc
  have hrn := alistContains_false_get_none hr
  refine ⟨hc, hr, ?_⟩
  simp [getExecutionStatus, hrn, hcs]

/-! ## C5 — transient retries, backoff and the terminal result -/

theorem range_map_min_pow (r g : Nat) :
    (List.range (g + 1)).map (fun i => min 300 (2 ^ (r + i + 1))) =
      min 300 (2 ^ (r + 1)) ::
        (List.range g).map (fun i => min 300 (2 ^ ((r + 1) + i + 1))) := by
  rw [List.range_succ_eq_map]
  simp only [List.map_cons, List.map_map, List.cons.injEq]
  constructor
  · simp
  · apply List.map_congr_left
    intro i _
    simp only [Function.comp]
    congr 2
    omega

theorem execGas_all_transient (env : ExecEnv)
    (h_auth : checkAppAuthenticated env.connected_accounts = true)
    (h_tr : ∀ k, ∃ m, env.attempt k = .raises m ∧ isRetryableError m = true) :
    ∀ (gas : Nat) (req : ActionRequest) (st : ExecutorState),
      (execGas env gas req st).delays =
        (List.range gas).map (fun i => min 300 (2 ^ (req.retry_count + i + 1))) ∧
      (execGas env gas req st).result.status = .FAILED ∧
      (execGas env gas req st).result.retry_count = 0 := by
  intro gas
  induction gas with
  | zero =>
      intro req st
      obtain ⟨m, hm, _⟩ := h_tr req.retry_count
      rw [execGas.eq_def]
      simp [h_auth, hm, finalizeFrame]
  | succ gas' ih =>
      intro req st
      obtain ⟨m, hm, hret⟩ := h_tr req.retry_count
      rw [execGas.eq_def]
      simp only [h_auth, hm, hret, if_true, ite_true]
      refine ⟨?_, (ih _ _).2.1, (ih _ _).2.2⟩
      rw [range_map_min_pow req.retry_count gas', (ih _ _).1]

/-- C5, corrected.  When the user is authenticated and every attempt
raises a transient-classified error, `_execute_single_action` retries
exactly `max_retries` times, sleeping `min(300, 2 ** retry_count)`
seconds before the k-th retry (a sequence that plateaus at the 300-second
cap instead of increasing strictly), and returns a FAILED result — whose
`retry_count` field is 0, because the field is only written on RETRYING
results, never on the terminal FAILED one. -/
theorem C5_transient_retry_schedule (env : ExecEnv) (req : ActionRequest)
    (st : ExecutorState)
    (h_auth : checkAppAuthenticated env.connected_accounts = true)
    (h_tr : ∀ k, ∃ m, env.attempt k = .raises m ∧ isRetryableError m = true)
    (h0 : req.retry_count = 0) :
    (executeSingleAction env req st).delays =
      (List.range req.max_retries).map (fun i => min 300 (2 ^ (i + 1))) ∧
    (executeSingleAction env req st).result.status = .FAILED ∧
    (executeSingleAction env req st).result.retry_count = 0 := by
  have h := execGas_all_transient env h_auth h_tr (req.max_retries - req.retry_count) req st
  rw [h0] at h
  simpa [executeSingleAction, h0] using h

/-- Witness for `C5_transient_retry_schedule`: with the default
`max_retries = 3` the backoff sleeps are 2, 4, 8 seconds. -/
theorem C5_transient_retry_schedule_witness :
    (executeSingleAction c5Env c5Req {}).delays = [2, 4, 8] ∧
    (executeSingleAction c5Env c5Req {}).result.status = .FAILED ∧
    (executeSingleAction c5Env c5Req {}).result.retry_count = 0 := by
  have h := C5_transient_retry_schedule c5Env c5Req {} rfl
    (fun k => ⟨"Request timeout after 300s", rfl, rfl⟩) rfl
  exact ⟨h.1.trans rfl, h.2.1, h.2.2⟩

/-- C5's claim is false on the code, in two ways, at a request with
`max_retries = 10` whose attempts all raise timeouts: the backoff delays
plateau at the 300-second cap (`min(300, 2**9) = min(300, 2**10) = 300`),
so they are not strictly increasing, and the terminal FAILED result's
`retry_count` is 0, not `max_retries`. -/
theorem C5_counterexample_plateau_and_zero_retry_count :
    (executeSingleAction c5Env { c5Req with max_retries := 10 } {}).delays =
      [2, 4, 8, 16, 32, 64, 128, 256, 300, 300] ∧
    (executeSingleAction c5Env { c5Req with max_retries := 10 } {}).result.status =
      .FAILED ∧
    (executeSingleAction c5Env { c5Req with max_retries := 10 } {}).result.retry_count ≠
      10 := by
  have h := execGas_all_transient c5Env rfl
    (fun k => ⟨"Request timeout after 300s", rfl, rfl⟩)
    10 { c5Req with max_retries := 10 } {}
  refine ⟨h.1.trans (by decide), h.2.1, ?_⟩
  have h0 : (executeSingleAction c5Env { c5Req with max_retries := 10 } {}).result.retry_count
      = 0 := h.2.2
  rw [h0]
  decide

/-! ## C6 — missing credential: terminal failure, no retry? -/

/-- C6, corrected.  With no usable credential the authentication check
raises `"User {user_id} not authenticated for {app_name}"`; the run ends
FAILED with that error and performs no retry — PROVIDED the message is
not transient-classified.  `_is_retryable_error` is a substring match
over the whole message, which embeds the user id and app name, so the
proviso is not vacuous (see the counterexample). -/
theorem C6_unauthenticated_terminal_failure (env : ExecEnv) (req : ActionRequest)
    (st : ExecutorState)
    (h_na : checkAppAuthenticated env.connected_accounts = false)
    (h_msg : isRetryableError (authErrorMsg req) = false) :
    (executeSingleAction env req st).result.status = .FAILED ∧
    (executeSingleAction env req st).result.error = some (authErrorMsg req) ∧
    (executeSingleAction env req st).delays = [] := by
  unfold executeSingleAction
  cases h : req.max_retries - req.retry_count with
  | zero =>
      rw [execGas.eq_def]
      simp [h_na, finalizeFrame]
  | succ gas' =>
      rw [execGas.eq_def]
      simp [h_na, h_msg, finalizeFrame]

/-- Witness for `C6_unauthenticated_terminal_failure` at the concrete
request: the auth error for app `gmail` is not transient-classified. -/
theorem C6_unauthenticated_terminal_failure_witness :
    (executeSingleAction c6Env c6Req {}).result.status = .FAILED ∧
    (executeSingleAction c6Env c6Req {}).result.error = some (authErrorMsg c6Req) ∧
    (executeSingleAction c6Env c6Req {}).delays = [] :=
  C6_unauthenticated_terminal_failure c6Env c6Req {} rfl rfl

/-- C6's claim is false on the code as universally stated: for an app
named `network_tools` the auth-failure message
`"User u1 not authenticated for network_tools"` contains the transient
indicator `"network"`, so the unauthenticated request IS retried — three
backoff sleeps — before failing. -/
theorem C6_counterexample_auth_failure_retried :
    isRetryableError (authErrorMsg { c6Req with app_name := "network_tools" }) = true ∧
    (executeSingleAction c6Env { c6Req with app_name := "network_tools" } {}).delays =
      [2, 4, 8] ∧
    (executeSingleAction c6Env { c6Req with app_name := "network_tools" } {}).result.status =
      .FAILED :=
  ⟨rfl, rfl, rfl⟩

/-! ## C3 and C4 — SEQUENTIAL and PARALLEL composite nodes -/

/-- Fold `catchFrame ∘ evalBody` back into `evalNode`. -/
theorem evalNode_def (env : TreeEnv) (t : TaskNode) (ctx : List (String × Val))
    (steps : List (String × Bool)) :
    catchFrame (evalBody env t ctx steps) = evalNode env t ctx steps := rfl

/-- C3, corrected.  The SEQUENTIAL loop evaluates children strictly in
order, merges each successful child's truthy output into the shared
context before evaluating the next child, and stops on the FIRST failing
child regardless of how its error is classified — transient-rate-limited
failures short-circuit exactly like any other failure (see the
counterexample; the rate-limit-continue / authentication-stop behaviour
lives only in `_execute_workflow_plan`'s linear loop, not in the
SEQUENTIAL tree branch the claim is about). -/
theorem C3_sequential_order_merge_short_circuit
    (env : TreeEnv) (t : TaskNode) (rest : List TaskNode)
    (ctx ctx1 : List (String × Val)) (steps steps1 : List (String × Bool))
    (acc : List NodeResult) (r : NodeResult)
    (h : evalNode env t ctx steps = (r, ctx1, steps1)) :
    (r.success = false →
      evalSeqLoop env (t :: rest) ctx steps acc = (.ok (acc ++ [r]), ctx1, steps1)) ∧
    (∀ d ctx2, r.success = true → r.data = some d → d.truthy = true →
      ctxUpdateVal ctx1 d = .ok ctx2 →
      evalSeqLoop env (t :: rest) ctx steps acc =
        evalSeqLoop env rest ctx2 steps1 (acc ++ [r])) := by
  constructor
  · intro hf
    simp [evalSeqLoop, evalNode_def, h, hf]
  · intro d ctx2 hs hd htr hupd
    simp [evalSeqLoop, evalNode_def, h, hs, hd, htr, hupd]

/-- Witness for `C3_sequential_order_merge_short_circuit`: a concrete
two-child SEQUENTIAL loop whose first child fails stops after that child.
-/
theorem C3_sequential_short_circuit_witness :
    evalSeqLoop envOkOrRateLimited [.leaf "bad" [], .leaf "ok" []] [] [] [] =
      (.ok [{ success := false, error := some "rate limit exceeded" }], [],
        [("bad", false)]) :=
  (C3_sequential_order_merge_short_circuit envOkOrRateLimited (.leaf "bad" [])
    [.leaf "ok" []] [] [] [] [("bad", false)] []
    { success := false, error := some "rate limit exceeded" } rfl).1 rfl

/-- C3's claim is false on the code: in a SEQUENTIAL node whose first
child fails with a rate-limit error — an error that IS
transient-classified (`_is_retryable_error` matches `"rate limit"`) —
the second child is never evaluated: the executed-steps trace of the node
records only the first child. -/
theorem C3_counterexample_rate_limited_failure_short_circuits :
    isRetryableError "rate limit exceeded" = true ∧
    (evalNode envOkOrRateLimited (.sequential [.leaf "bad" [], .leaf "ok" []]) [] []).2.2 =
      [("bad", false)] ∧
    (evalNode envOkOrRateLimited
      (.sequential [.leaf "bad" [], .leaf "ok" []]) [] []).1.success = false :=
  ⟨rfl, rfl, rfl⟩

/-- C4, corrected.  A PARALLEL node evaluates every child against the
same incoming context value (`context.copy()` — so children are mutually
independent), its own returned context is the parent's context UNCHANGED
(child outputs are collected into the node's result data, not merged
back), and its success aggregation ANDs the successes of exactly the
gather items that are result dicts — items that are raised exceptions are
filtered out rather than counted as failures. -/
theorem C4_parallel_copies_no_merge_aggregation
    (env : TreeEnv) (tasks : List TaskNode) (t : TaskNode) (rest : List TaskNode)
    (ctx : List (String × Val)) (steps : List (String × Bool))
    (m : String) (items : List GatherItem) (rs : List NodeResult) :
    (evalNode env (.parallel tasks) ctx steps).2.1 = ctx ∧
    (evalChildrenCopy env (t :: rest) ctx steps).1 =
      (evalNode env t ctx steps).1 ::
        (evalChildrenCopy env rest ctx (evalNode env t ctx steps).2.2).1 ∧
    combineParallelSuccess (.exc m :: items) = combineParallelSuccess items ∧
    combineParallelSuccess (rs.map .result) = rs.all (fun r => r.success) := by
  refine ⟨?_, rfl, ?_, ?_⟩
  · show (catchFrame (evalBody env (.parallel tasks) ctx steps)).2.1 = ctx
    simp only [evalBody]
    cases hcc : evalChildrenCopy env tasks ctx steps with
    | mk results steps' =>
        cases had : allData results <;> simp [catchFrame]
  · simp [combineParallelSuccess]
  · induction rs with
    | nil => rfl
    | cons a as ih => simpa [combineParallelSuccess, List.filterMap_cons] using ih

/-- C4's claim is false on the code: a PARALLEL node whose only child
succeeds with a truthy dict output returns the parent context unchanged —
nothing is merged back — although the same leaf evaluated directly does
extend the context it is given. -/
theorem C4_counterexample_parallel_outputs_not_merged :
    (evalNode envOkOrRateLimited (.parallel [.leaf "ok" []]) [("a", .num 0)] []).1.data =
      some (.list [.dict [("k", .num 1)]]) ∧
    (evalNode envOkOrRateLimited (.parallel [.leaf "ok" []]) [("a", .num 0)] []).2.1 =
      [("a", .num 0)] ∧
    (evalNode envOkOrRateLimited (.leaf "ok" []) [("a", .num 0)] []).2.1 =
      [("a", .num 0), ("ok_result", .dict [("k", .num 1)])] :=
  ⟨rfl, rfl, rfl⟩

/-! ## C10 — context-variable resolution -/

/-- C10, confirmed.  `_resolve_context_variables` keeps exactly the keys
of the parameter dict and resolves each value independently: a string of
the exact shape `${name}` becomes `context[name]` when `name` is a key of
the context and stays the literal template string when it is not; any
other string, and every number/bool/None, passes through unchanged; dict
values are resolved recursively; list values have exactly their dict
items resolved recursively, all other items passing through unchanged. -/
theorem C10_resolve_context_variables_characterization
    (params context : List (String × Val)) (s : String) (v : Val)
    (entries : List (String × Val)) (items : List Val) (n : Int) (b : Bool) :
    ((resolveContextVariables params context).map Prod.fst = params.map Prod.fst) ∧
    (resolveContextVariables params context =
      params.map (fun e => (e.1, resolveParamValue e.2 context))) ∧
    ((strStartsWith s "$\x7b" && strEndsWith s "\x7d") = true →
      alistGet context (strDropRight (strDrop s 2) 1) = some v →
      resolveParamValue (.str s) context = v) ∧
    ((strStartsWith s "$\x7b" && strEndsWith s "\x7d") = true →
      alistGet context (strDropRight (strDrop s 2) 1) = none →
      resolveParamValue (.str s) context = .str s) ∧
    ((strStartsWith s "$\x7b" && strEndsWith s "\x7d") = false →
      resolveParamValue (.str s) context = .str s) ∧
    (resolveParamValue (.dict entries) context =
      .dict (resolveContextVariables entries context)) ∧
    (resolveParamValue (.list items) context = .list (resolveListItems items context)) ∧
    (resolveListItems (.dict entries :: items) context =
      .dict (resolveContextVariables entries context) :: resolveListItems items context) ∧
    (∀ item : Val, (∀ es, item ≠ .dict es) →
      resolveListItems (item :: items) context = item :: resolveListItems items context) ∧
    (resolveParamValue (.num n) context = .num n) ∧
    (resolveParamValue (.bool b) context = .bool b) ∧
    (resolveParamValue .null context = .null) := by
  refine ⟨?_, ?_, ?_, ?_, ?_, rfl, rfl, rfl, ?_, rfl, rfl, rfl⟩
  · induction params with
    | nil => rfl
    | cons e rest ih => simpa [resolveContextVariables] using ih
  · induction params with
    | nil => rfl
    | cons e rest ih => simpa [resolveContextVariables] using ih
  · intro hshape hget
    simp [resolveParamValue, hshape, hget]
  · intro hshape hget
    simp [resolveParamValue, hshape, hget]
  · intro hshape
    simp [resolveParamValue, hshape]
  · intro item hnd
    cases item with
    | dict es => exact absurd rfl (hnd es)
    | str s' => rfl
    | num n' => rfl
    | bool b' => rfl
    | null => rfl
    | list l => rfl

/-- Witness for `C10_resolve_context_variables_characterization` at
concrete inputs: a matching template is substituted, a missing name
leaves the literal, and the key set is preserved. -/
theorem C10_resolve_context_variables_witness :
    resolveParamValue (.str "${x}") [("x", .num 7)] = .num 7 ∧
    resolveParamValue (.str "${missing}") [("x", .num 7)] = .str "${missing}" ∧
    (resolveContextVariables [("a", .str "${x}"), ("b", .num 5)] [("x", .num 7)]).map
      Prod.fst = ["a", "b"] :=
  ⟨(C10_resolve_context_variables_characterization [] [("x", .num 7)] "${x}" (.num 7)
      [] [] 0 false).2.2.1 rfl rfl,
   (C10_resolve_context_variables_characterization [] [("x", .num 7)] "${missing}" .null
      [] [] 0 false).2.2.2.1 rfl rfl,
   (C10_resolve_context_variables_characterization
      [("a", .str "${x}"), ("b", .num 5)] [("x", .num 7)] "" .null [] [] 0 false).1⟩

end Allin1
